import Mathlib

/-!
Shallow embedding of `main.py` (Nutricion-Diagnóstico).

Python numbers are modelled exactly: `PyNum` carries the `int`/`float`
distinction the source branches on (`isinstance(x, int)` / `isinstance(x,
float)`), with `float` idealised as an exact rational.  `PyVal` additionally
covers `bool`, `str` and `None`, which the validation layer inspects
(`bool` is a subclass of `int` in Python, so `isinstance(b, (int, float))`
holds for booleans).  the Python built-in `round(x, 2)` rounds half to even;
`round2` reproduces that on rationals.  Functions that can raise are
modelled with `Except PyErr`.  Error messages are not modelled, only the
exception class.
-/

/-- Decidable equality for `Except` results, so concrete runs can be
checked by `decide`. -/
instance {ε α : Type} [DecidableEq ε] [DecidableEq α] : DecidableEq (Except ε α) := fun a b => by
  cases a <;> cases b
  case error.error e f => exact decidable_of_iff (e = f) (by simp)
  case error.ok e x => exact Decidable.isFalse (by simp)
  case ok.error x e => exact Decidable.isFalse (by simp)
  case ok.ok x y => exact decidable_of_iff (x = y) (by simp)

/-- The exception classes raised by the program. -/
inductive PyErr where
  | valueError
  | keyError
  | attributeError
  | typeError
deriving DecidableEq, Repr

/-- A Python number: either an `int` or a `float` (idealised as ℚ). -/
inductive PyNum where
  | int (n : Int)
  | float (q : ℚ)
deriving DecidableEq, Repr

/-- Numeric value of a `PyNum`. -/
def PyNum.val : PyNum → ℚ
  | .int n => (n : ℚ)
  | .float q => q

/-- Source `isinstance(x, float)`. -/
def PyNum.isFloat : PyNum → Bool
  | .int _ => false
  | .float _ => true

/-- Source `isinstance(x, int)` (for a `PyNum`, which is never a `bool`). -/
def PyNum.isInt : PyNum → Bool
  | .int _ => true
  | .float _ => false

/-- A Python value as seen by the validation layer. -/
inductive PyVal where
  | none
  | bool (b : Bool)
  | int (n : Int)
  | float (q : ℚ)
  | str (s : String)
deriving DecidableEq, Repr

/-- Embed a number into `PyVal`. -/
def PyNum.toVal : PyNum → PyVal
  | .int n => PyVal.int n
  | .float q => PyVal.float q

/-- Source `isinstance(v, bool)`. -/
def PyVal.isBool : PyVal → Bool
  | .bool _ => true
  | _ => false

/-- Source `isinstance(v, (int, float))`; note Python booleans are ints. -/
def PyVal.isIntOrFloat : PyVal → Bool
  | .bool _ => true
  | .int _ => true
  | .float _ => true
  | _ => false

/-- Source `isinstance(v, str)`. -/
def PyVal.isStr : PyVal → Bool
  | .str _ => true
  | _ => false

/-- Numeric value of a `PyVal` (junk `0` on non-numeric values; the program
only reaches arithmetic after `isinstance` checks). -/
def PyVal.asRat : PyVal → ℚ
  | .bool b => if b then 1 else 0
  | .int n => (n : ℚ)
  | .float q => q
  | _ => 0

/-- Recover a `PyNum` from a numeric `PyVal` (a Python `bool` is an `int`). -/
def PyVal.toNum : PyVal → Option PyNum
  | .bool b => some (.int (if b then 1 else 0))
  | .int n => some (.int n)
  | .float q => some (.float q)
  | _ => Option.none

/-- Floor of a rational as an integer (numerator floor-divided by the
positive denominator); an executable form of `Int.floor`. -/
def ratFloor (q : ℚ) : Int := q.num.fdiv q.den

/-- Round half to even, as the Python built-in `round` does at ties. -/
def roundHalfEven (q : ℚ) : Int :=
  let f : Int := ratFloor q
  let r : ℚ := q - f
  if r < 1/2 then f
  else if 1/2 < r then f + 1
  else if f % 2 = 0 then f else f + 1

/-- the Python `round(x, ndigits=2)`. -/
def round2 (q : ℚ) : ℚ := (roundHalfEven (q * 100) : ℚ) / 100

/-- Decimal rendering of a two-decimal float, as the Python `repr`/f-string
prints the result of `round(x, 2)`: trailing zero in the cents digit is
dropped, but at least one fractional digit is kept. -/
def reprRound2 (q : ℚ) : String :=
  let k : Int := ratFloor (q * 100)
  let sign : String := if k < 0 then "-" else ""
  let a : Nat := k.natAbs
  let units : Nat := a / 100
  let cents : Nat := a % 100
  if cents % 10 = 0 then sign ++ toString units ++ "." ++ toString (cents / 10)
  else if cents < 10 then sign ++ toString units ++ ".0" ++ toString cents
  else sign ++ toString units ++ "." ++ toString cents

/-- Lower-case an ASCII letter, as `str.lower` does (every string the
program compares against is ASCII). -/
def pyLowerChar (c : Char) : Char :=
  if 65 ≤ c.toNat && c.toNat ≤ 90 then Char.ofNat (c.toNat + 32) else c

/-- the Python `str.lower()` on the ASCII range. -/
def pyLower (s : String) : String := ⟨s.data.map pyLowerChar⟩

/-- The `Generos` enum values: `("hombre", "mujer")`. -/
def generos_validos : List String := ["hombre", "mujer"]

/-- The `genero` clause of `validar_data_persona`: after lower-casing a
string, raise unless the value is `None` or one of `generos_validos`
(a non-string, non-`None` value is never in the list, hence raises). -/
def generoOk (genero : PyVal) : Bool :=
  match genero with
  | .none => true
  | .str s => generos_validos.contains (pyLower s)
  | _ => false

/-- One iteration of the `for (name_error, value) in ...` loop of
`validar_data_persona`: raise iff the value `isinstance(value, bool)`,
or is not `None` and not `isinstance(value, (int, float))`,
or is not `None` and `value <= 0`.  Returns `true` when the check passes. -/
def checkNumField (value : PyVal) : Bool :=
  match value with
  | .none => true
  | v => !(v.isBool || (!v.isIntOrFloat) || decide (v.asRat ≤ 0))

/-- Source `validar_data_persona(genero, peso, estatura, edad)`; every raise in the
source is a `ValueError`.  `PyVal.none` plays the role of the `None`
default (checks are skipped for it). -/
def validar_data_persona (genero peso estatura edad : PyVal) : Except PyErr Unit :=
  if !(generoOk genero) then .error .valueError
  else if !(checkNumField peso) then .error .valueError
  else if !(checkNumField estatura) then .error .valueError
  else if !(checkNumField edad) then .error .valueError
  else .ok ()

/-- Source `convertir_cm_a_metros`: divide by 100 iff the (always numeric) value
exceeds 10. -/
def convertir_cm_a_metros (estatura : PyNum) : ℚ :=
  if 10 < estatura.val then estatura.val / 100 else estatura.val

/-- Source `convertir_metros_a_cm`: multiply by 100 iff the value is a `float`
below 10. -/
def convertir_metros_a_cm (estatura : PyNum) : ℚ :=
  if estatura.isFloat && decide (estatura.val < 10) then estatura.val * 100
  else estatura.val

/-- Module-level `calcular_imc(peso, estatura)`. -/
def calcular_imc (peso estatura : PyNum) : Except PyErr ℚ :=
  match validar_data_persona PyVal.none peso.toVal estatura.toVal PyVal.none with
  | .error e => .error e
  | .ok _ => .ok (round2 (peso.val / (convertir_cm_a_metros estatura) ^ 2))

/-- Source `peso_ideal_lorentz(genero, estatura, edad)`; the female branch divides
the age term by `2 ** 5`, every other `genero` takes the male branch. -/
def peso_ideal_lorentz (genero : String) (estatura edad : PyNum) : ℚ :=
  let e : ℚ := convertir_metros_a_cm estatura
  if genero = "mujer" then
    round2 (e - 100 - ((e - 150) / 4) + ((edad.val - 20) / 2 ^ 5))
  else
    round2 (e - 100 - ((e - 150) / 4) + ((edad.val - 20) / 4))

/-- Source `rango_peso_saludable(estatura)`: square the height if it is a `float`
below 10, otherwise square height divided by 100, then format the 18.5 and
24.99 multiples rounded to 2 decimals. -/
def rango_peso_saludable (estatura : PyNum) : String :=
  let e2 : ℚ :=
    if estatura.isFloat && decide (estatura.val < 10) then estatura.val ^ 2
    else (estatura.val / 100) ^ 2
  let peso_maximo : ℚ := round2 (e2 * 24.99)
  let peso_minimo : ℚ := round2 (e2 * 18.5)
  "peso minimo=" ++ reprRound2 peso_minimo ++ "kg - maximo=" ++ reprRound2 peso_maximo ++ "kg"

/-- Source `calcular_eta(kcal_base)`: the 10% thermic effect. -/
def calcular_eta (kcal_base : ℚ) : ℚ := kcal_base / 10

/-- Source `calcular_kcal_totales(kcal_base, usar_eta)`. -/
def calcular_kcal_totales (kcal_base : ℚ) (usar_eta : Bool) : ℚ :=
  if usar_eta then round2 (kcal_base + calcular_eta kcal_base)
  else round2 kcal_base

/-- Source `formula_kcal_krumdieck(peso, estatura)`: keep the height iff it is a
`float` below 10, otherwise divide by 100; returns the bare number. -/
def formula_kcal_krumdieck (peso estatura : PyNum) : ℚ :=
  let e : ℚ :=
    if estatura.isFloat && decide (estatura.val < 10) then estatura.val
    else estatura.val / 100
  30 * peso.val + 40 * e

/-- Source `formula_kcal_harris(...)`: message string with the rounded kcal. -/
def formula_kcal_harris (nombre genero : String) (estatura peso edad : PyNum)
    (usar_eta : Bool) : String :=
  let mensaje : String :=
    "De acuerdo a la fórmula de harris estimado " ++ nombre ++ ", las kcal que necesitas son: "
  let e : ℚ := convertir_metros_a_cm estatura
  if genero = "mujer" then
    let formula_mujer : ℚ := 655.1 + (9.563 * peso.val) + (1.85 * e) - (4.676 * edad.val)
    mensaje ++ reprRound2 (calcular_kcal_totales formula_mujer usar_eta)
  else
    let formula_hombre : ℚ := 66.5 + (13.75 * peso.val) + (5.003 * e) - (6.775 * edad.val)
    mensaje ++ reprRound2 (calcular_kcal_totales formula_hombre usar_eta)

/-- Source `formula_kcal_mifflin(...)`. -/
def formula_kcal_mifflin (nombre genero : String) (estatura peso edad : PyNum)
    (usar_eta : Bool) : String :=
  let mensaje : String :=
    "De acuerdo a la fórmula de mifflin estimado " ++ nombre ++ ", las kcal que necesitas son: "
  let e : ℚ := convertir_metros_a_cm estatura
  if genero = "mujer" then
    let formula_mujer : ℚ := (10 * peso.val) + (6.25 * e) - (5 * edad.val) - 161
    mensaje ++ reprRound2 (calcular_kcal_totales formula_mujer usar_eta)
  else
    let formula_hombre : ℚ := (10 * peso.val) + (6.25 * e) - (5 * edad.val) + 5
    mensaje ++ reprRound2 (calcular_kcal_totales formula_hombre usar_eta)

/-- Source `formula_kcal_fao_oms(...)`. -/
def formula_kcal_fao_oms (nombre genero : String) (estatura peso edad : PyNum)
    (usar_eta : Bool) : String :=
  let mensaje : String :=
    "De acuerdo a la fórmula de fao/oms estimado " ++ nombre ++ ", las kcal que necesitas son: "
  let e : ℚ := convertir_metros_a_cm estatura
  if genero = "mujer" then
    let formula_mujer : ℚ := 447.593 + (9.247 * peso.val) + (3.098 * e) - (4.330 * edad.val)
    mensaje ++ reprRound2 (calcular_kcal_totales formula_mujer usar_eta)
  else
    let formula_hombre : ℚ := 88.362 + (13.397 * peso.val) + (4.799 * e) - (5.677 * edad.val)
    mensaje ++ reprRound2 (calcular_kcal_totales formula_hombre usar_eta)

/-- The members of the `FormulasCalculoKcal` enum. -/
inductive FormulasCalculoKcal where
  | harris_benedict
  | mifflin
  | fao_oms
  | krumdieck
deriving DecidableEq, Repr

/-- The `.value` string of each `FormulasCalculoKcal` member. -/
def FormulasCalculoKcal.value : FormulasCalculoKcal → String
  | .harris_benedict => "harris"
  | .mifflin => "mifflin"
  | .fao_oms => "fao/oms"
  | .krumdieck => "krumdieck"

/-- A `formula` argument of type `FormulasCalculoKcal | str`. -/
inductive FormulaKcalArg where
  | str (s : String)
  | memb (f : FormulasCalculoKcal)
deriving DecidableEq, Repr

/-- Source `tuple(fo.value for fo in FormulasCalculoKcal)`. -/
def formulas_validas_kcal : List String := ["harris", "mifflin", "fao/oms", "krumdieck"]

/-- Source `validar_formula_kcal(formula, eta)`: lower-case a string formula,
require `eta` to be a `bool`, and require a string formula to be one of
the four enum values.  (The `isinstance(formula, (str, FormulasCalculoKcal))`
check holds by the type of `FormulaKcalArg`.) -/
def validar_formula_kcal (formula : FormulaKcalArg) (eta : PyVal) : Except PyErr Unit :=
  let formula : FormulaKcalArg :=
    match formula with
    | .str s => .str (pyLower s)
    | m => m
  if !eta.isBool then .error .valueError
  else
    match formula with
    | .str s => if !(formulas_validas_kcal.contains s) then .error .valueError else .ok ()
    | .memb _ => .ok ()

/-- The calorie formula functions that appear in the dispatch tables of
`buscar_formula_kcal`, as named tags; `KcalFormulaFn.run` maps each tag
to the formula function it names. -/
inductive KcalFormulaFn where
  | harris
  | mifflin
  | fao_oms
deriving DecidableEq, Repr

/-- Source `buscar_formula_kcal(formula)`: the two dispatch dicts; a lookup miss
raises `KeyError`.  Neither dict has an entry for `krumdieck`. -/
def buscar_formula_kcal (formula : FormulaKcalArg) : Except PyErr KcalFormulaFn :=
  match formula with
  | .str "harris" => .ok .harris
  | .str "mifflin" => .ok .mifflin
  | .str "fao/oms" => .ok .fao_oms
  | .str _ => .error .keyError
  | .memb .harris_benedict => .ok .harris
  | .memb .mifflin => .ok .mifflin
  | .memb .fao_oms => .ok .fao_oms
  | .memb .krumdieck => .error .keyError

/-- The (second, effective) `Persona` dataclass: a plain record of five
attributes.  Fields are `PyVal` because plain dataclass attributes can be
reassigned to arbitrary values after construction. -/
structure Persona where
  nombre : PyVal
  genero : PyVal
  peso : PyVal
  estatura : PyVal
  edad : PyVal
deriving DecidableEq, Repr

/-- Source `Persona(...)` construction, i.e. the dataclass `__init__` +
`__post_init__`: name must be a string of length ≥ 5, then
`validar_data_persona` on the other fields, then `self.genero =
self.genero.lower()` (an `AttributeError` if `genero` has no `.lower`,
which after validation can only happen for `None`). -/
def mkPersona (nombre genero peso estatura edad : PyVal) : Except PyErr Persona :=
  match nombre with
  | .str s =>
    if s.length < 5 then .error .valueError
    else
      match validar_data_persona genero peso estatura edad with
      | .error e => .error e
      | .ok _ =>
        match genero with
        | .str g => .ok ⟨.str s, .str (pyLower g), peso, estatura, edad⟩
        | _ => .error .attributeError
  | _ => .error .valueError

/-- Attribute assignment `p.nombre = v` on the plain dataclass. -/
def Persona.set_nombre (p : Persona) (v : PyVal) : Persona := { p with nombre := v }

/-- Attribute assignment `p.genero = v` on the plain dataclass. -/
def Persona.set_genero (p : Persona) (v : PyVal) : Persona := { p with genero := v }

/-- Attribute assignment `p.peso = v` on the plain dataclass. -/
def Persona.set_peso (p : Persona) (v : PyVal) : Persona := { p with peso := v }

/-- Attribute assignment `p.estatura = v` on the plain dataclass. -/
def Persona.set_estatura (p : Persona) (v : PyVal) : Persona := { p with estatura := v }

/-- Attribute assignment `p.edad = v` on the plain dataclass. -/
def Persona.set_edad (p : Persona) (v : PyVal) : Persona := { p with edad := v }

/-- The `ValoracionNutricional` dataclass (its only field is `name`). -/
structure ValoracionNutricional where
  name : String
deriving DecidableEq, Repr

/-- Source `ValoracionNutricional(name)` construction with its `__post_init__`
length check. -/
def mkValoracionNutricional (name : PyVal) : Except PyErr ValoracionNutricional :=
  match name with
  | .str s => if s.length < 5 then .error .valueError else .ok ⟨s⟩
  | _ => .error .valueError

/-- Method `ValoracionNutricional.calcular_imc(peso, estatura)`: validate,
then divide the height by 100 iff it is an `int` (a `float` is used as
meters as-is), and round the BMI to 2 decimals.  The `print` call is an
external display effect and is not modelled. -/
def ValoracionNutricional.calcular_imc (_self : ValoracionNutricional)
    (peso estatura : PyNum) : Except PyErr ℚ :=
  match validar_data_persona PyVal.none peso.toVal estatura.toVal PyVal.none with
  | .error e => .error e
  | .ok _ =>
    let e : ℚ := if estatura.isInt then estatura.val / 100 else estatura.val
    .ok (round2 (peso.val / e ^ 2))

/-- The fallback message of `diagnostico_imc`. -/
def mensaje_sin_resultado : String :=
  "No te encuentras en ninguno de los resultados, verifica bien los datos que ingresados"

/-- Method `ValoracionNutricional.diagnostico_imc(peso, estatura)`: validate,
compute the BMI via the method above, then pick the first of the four band
messages whose condition holds (the dict of messages zipped with the list of
band booleans, in insertion order), falling back to `mensaje_sin_resultado`. -/
def ValoracionNutricional.diagnostico_imc (self : ValoracionNutricional)
    (peso estatura : PyNum) : Except PyErr String :=
  match validar_data_persona PyVal.none peso.toVal estatura.toVal PyVal.none with
  | .error e => .error e
  | .ok _ =>
    match self.calcular_imc peso estatura with
    | .error e => .error e
    | .ok resultado_imc =>
      let bajo_peso : Bool := decide (resultado_imc < 18.5)
      let peso_normal : Bool := decide (18.5 ≤ resultado_imc) && decide (resultado_imc < 25)
      let sobrepeso : Bool := decide (24.99 < resultado_imc) && decide (resultado_imc < 30)
      let obesidad : Bool := decide (29.99 < resultado_imc) && decide (resultado_imc < 35)
      let resultado : List String :=
        ([("Te encuentras en un bajo peso", bajo_peso),
          ("Te encuentras en un peso saludable", peso_normal),
          ("Te encuentras en sobrepeso", sobrepeso),
          ("Te encuentras en obesidad", obesidad)].filter (fun par => par.2)).map
          (fun par => par.1)
      match resultado with
      | mensaje :: _ => .ok mensaje
      | [] => .ok mensaje_sin_resultado

/-- Truthiness of a `PyVal`, as `if usar_eta:` evaluates it. -/
def PyVal.truthy : PyVal → Bool
  | .none => false
  | .bool b => b
  | .int n => decide (n ≠ 0)
  | .float q => decide (q ≠ 0)
  | .str s => decide (s ≠ "")

/-- The `CalculadoraDeCalorias` dataclass state after `__post_init__`. -/
structure CalculadoraDeCalorias where
  persona : Persona
  formula : FormulaKcalArg
  eta : PyVal
deriving DecidableEq, Repr

/-- Source `CalculadoraDeCalorias(persona, formula, eta)` construction:
`__post_init__` runs `validar_formula_kcal` and lower-cases a string
formula. -/
def mkCalculadoraDeCalorias (persona : Persona) (formula : FormulaKcalArg)
    (eta : PyVal) : Except PyErr CalculadoraDeCalorias :=
  match validar_formula_kcal formula eta with
  | .error e => .error e
  | .ok _ =>
    match formula with
    | .str s => .ok ⟨persona, .str (pyLower s), eta⟩
    | m => .ok ⟨persona, m, eta⟩

/-- Apply the formula function named by a tag to the unpacked `asdict`
fields of a `Persona`, as `formula_kcal_a_usar(**persona_data,
usar_eta=self.eta)` does.  A non-string name/sex or a non-numeric
weight/height/age would make the formula body raise; that is modelled as
a `TypeError` (unreachable for a validly constructed `Persona`). -/
def KcalFormulaFn.run (f : KcalFormulaFn) (p : Persona) (usar_eta : Bool) :
    Except PyErr String :=
  match p.nombre, p.genero, p.peso.toNum, p.estatura.toNum, p.edad.toNum with
  | .str n, .str g, some pe, some es, some ed =>
    match f with
    | .harris => .ok (formula_kcal_harris n g es pe ed usar_eta)
    | .mifflin => .ok (formula_kcal_mifflin n g es pe ed usar_eta)
    | .fao_oms => .ok (formula_kcal_fao_oms n g es pe ed usar_eta)
  | _, _, _, _, _ => .error .typeError

/-- Method `CalculadoraDeCalorias.calcular()`: resolve the formula via
`buscar_formula_kcal` (a `KeyError` propagates), then invoke it on the
data of the person with `usar_eta=self.eta`. -/
def CalculadoraDeCalorias.calcular (c : CalculadoraDeCalorias) : Except PyErr String :=
  match buscar_formula_kcal c.formula with
  | .error e => .error e
  | .ok f => f.run c.persona c.eta.truthy

/-- The members of the `FormulasPesoIdeal` enum. -/
inductive FormulasPesoIdeal where
  | lorentz
  | perrault
  | brocca
deriving DecidableEq, Repr

/-- A `formula` argument of type `FormulasPesoIdeal | str`. -/
inductive FormulaPesoArg where
  | str (s : String)
  | memb (f : FormulasPesoIdeal)
deriving DecidableEq, Repr

/-- Source `tuple(fo.value for fo in FormulasPesoIdeal)`. -/
def formulas_validas_peso_ideal : List String := ["lorentz", "perrault", "brocca"]

/-- Source `validar_formula_peso_ideal(formula)`. -/
def validar_formula_peso_ideal (formula : FormulaPesoArg) : Except PyErr Unit :=
  match formula with
  | .str s =>
    if !(formulas_validas_peso_ideal.contains (pyLower s)) then .error .valueError
    else .ok ()
  | .memb _ => .ok ()

/-- A raw `dict` argument for `CalculadoraPesoIdeal`, as an association
list (Python dict keys are unique). -/
def RawPersonaDict := List (String × PyVal)

/-- Python `dict.get(key)`: the stored value, or `None` when absent. -/
def dictGet (m : List (String × PyVal)) (key : String) : PyVal :=
  match m.find? (fun par => par.1 = key) with
  | some par => par.2
  | Option.none => PyVal.none

/-- Python set equality `set(a) == set(b)` on key lists. -/
def keySetEq (a b : List String) : Bool :=
  a.all (fun k => b.contains k) && b.all (fun k => a.contains k)

/-- The `CalculadoraPesoIdeal` dataclass state after `__post_init__`
(no field is rewritten there). -/
structure CalculadoraPesoIdeal where
  persona : Persona ⊕ List (String × PyVal)
  formula : FormulaPesoArg
deriving DecidableEq

/-- Source `CalculadoraPesoIdeal(persona, formula)` construction: when given a raw
dict, its key set must equal `{"genero", "estatura", "edad"}` (else
`ValueError`), then those three values are validated; in every case the
formula id is validated. -/
def mkCalculadoraPesoIdeal (persona : Persona ⊕ List (String × PyVal))
    (formula : FormulaPesoArg) : Except PyErr CalculadoraPesoIdeal :=
  match persona with
  | .inr m =>
    if !(keySetEq (m.map Prod.fst) ["genero", "estatura", "edad"]) then
      .error .valueError
    else
      match validar_data_persona (dictGet m "genero") PyVal.none
          (dictGet m "estatura") (dictGet m "edad") with
      | .error e => .error e
      | .ok _ =>
        match validar_formula_peso_ideal formula with
        | .error e => .error e
        | .ok _ => .ok ⟨persona, formula⟩
  | .inl _ =>
    match validar_formula_peso_ideal formula with
    | .error e => .error e
    | .ok _ => .ok ⟨persona, formula⟩

/-- Predicate of the name check in `Persona.__post_init__`: the name is
rejected when it is not a string or is shorter than 5 characters. -/
def nombreInvalido (nombre : PyVal) : Bool :=
  match nombre with
  | .str s => decide (s.length < 5)
  | _ => true

/-- Predicate of the per-field rejection rule of `validar_data_persona`
on a provided (non-`None`) value: a boolean, a non-numeric value, or a
value ≤ 0. -/
def campoNumericoInvalido (value : PyVal) : Bool :=
  match value with
  | .none => false
  | v => v.isBool || (!v.isIntOrFloat) || decide (v.asRat ≤ 0)

section

attribute [local semireducible] Rat.add Rat.mul Rat.inv Rat.sub Rat.ofScientific

/-- Helper: `checkNumField` is the negation of `campoNumericoInvalido` on
non-`None` values, and passes on `None`. -/
theorem checkNumField_eq_not_invalido (v : PyVal) :
    checkNumField v = !(campoNumericoInvalido v) := by
  cases v <;> rfl

/-- Helper: the field check passes on `None`. -/
theorem checkNumField_none : checkNumField PyVal.none = true := rfl

/-- Helper: the `genero` check passes on `None`. -/
theorem generoOk_none : generoOk PyVal.none = true := rfl

/-- Helper: a number embedded into `PyVal` passes the field check iff it is
positive. -/
theorem checkNumField_toVal (x : PyNum) :
    checkNumField x.toVal = decide (0 < x.val) := by
  cases x with
  | int n =>
    show (!(false || !true || decide (((n : Int) : ℚ) ≤ 0))) = decide (0 < ((n : Int) : ℚ))
    rw [Bool.not_true, Bool.false_or, Bool.or_comm, Bool.or_false, ← decide_not,
      decide_eq_decide]
    exact not_le
  | float q =>
    show (!(false || !true || decide (q ≤ 0))) = decide (0 < q)
    rw [Bool.not_true, Bool.false_or, Bool.or_comm, Bool.or_false, ← decide_not,
      decide_eq_decide]
    exact not_le

/-- Helper: `validar_data_persona` succeeds on two positive numbers in the
`peso`/`estatura` slots with no `genero`/`edad`. -/
theorem validar_pos_ok (peso estatura : PyNum) (hp : 0 < peso.val) (he : 0 < estatura.val) :
    validar_data_persona PyVal.none peso.toVal estatura.toVal PyVal.none = .ok () := by
  simp only [validar_data_persona, generoOk_none, checkNumField_none, checkNumField_toVal]
  simp [hp, he]

/-- C4 counterexample: on height `170` the source formats the minimum as
`53.46`, not `53.47` as claimed — the exact product `2.89 * 18.5 = 53.465`
sits on a half-cent tie that Python rounds down (half to even; binary
floating point lands just below the tie and rounds down as well). -/
theorem rango_peso_saludable_170_counterexample :
    rango_peso_saludable (.int 170) = "peso minimo=53.46kg - maximo=72.22kg" ∧
    rango_peso_saludable (.int 170) ≠ "peso minimo=53.47kg - maximo=72.22kg" := by
  exact ⟨by decide, by decide⟩

/-- C4 (amended): `rango_peso_saludable` squares the meters-normalised
height (square the value if it is a float below 10, else square value/100),
multiplies by 18.5 and 24.99, rounds both to 2 decimals and formats them;
on `170` this yields minimum `53.46` and maximum `72.22`. -/
theorem rango_peso_saludable_spec :
    (∀ estatura : PyNum,
      rango_peso_saludable estatura =
        (let m2 : ℚ :=
          if estatura.isFloat = true ∧ estatura.val < 10 then estatura.val ^ 2
          else (estatura.val / 100) ^ 2
         "peso minimo=" ++ reprRound2 (round2 (m2 * 18.5)) ++ "kg - maximo=" ++
           reprRound2 (round2 (m2 * 24.99)) ++ "kg")) ∧
    rango_peso_saludable (.int 170) = "peso minimo=53.46kg - maximo=72.22kg" := by
  constructor
  · intro estatura
    simp only [rango_peso_saludable, Bool.and_eq_true, decide_eq_true_eq]
  · decide

/-- C5 counterexample: on the integer height `5`, `formula_kcal_krumdieck`
divides by 100 (giving `30*1 + 40*0.05 = 32`), while the §4.2 heuristic
`convertir_cm_a_metros` would leave `5` unchanged (giving `230`). -/
theorem formula_kcal_krumdieck_counterexample :
    formula_kcal_krumdieck (.int 1) (.int 5) = 32 ∧
    30 * (PyNum.int 1).val + 40 * convertir_cm_a_metros (.int 5) = 230 ∧
    formula_kcal_krumdieck (.int 1) (.int 5) ≠
      30 * (PyNum.int 1).val + 40 * convertir_cm_a_metros (.int 5) := by
  exact ⟨by decide, by decide, by decide⟩

/-- C5 (amended): for every weight and height, `formula_kcal_krumdieck`
returns the bare, unrounded number `30*W + 40*m`, where `m` keeps the
height as-is iff it is a float below 10 and otherwise divides it by 100
(not the `>10` heuristic of `convertir_cm_a_metros`). -/
theorem formula_kcal_krumdieck_spec :
    ∀ (peso estatura : PyNum),
      formula_kcal_krumdieck peso estatura =
        30 * peso.val +
          40 * (if estatura.isFloat = true ∧ estatura.val < 10 then estatura.val
                else estatura.val / 100) := by
  intro peso estatura
  simp only [formula_kcal_krumdieck, Bool.and_eq_true, decide_eq_true_eq]

/-- C8: `peso_ideal_lorentz` converts the height to centimeters via
`convertir_metros_a_cm`, then returns, rounded to 2 decimals,
`H-100-((H-150)/4)+((edad-20)/4)` for any non-`"mujer"` sex and
`H-100-((H-150)/4)+((edad-20)/32)` for `"mujer"`; in particular
`peso_ideal_lorentz "hombre" 170 22 = 65.5`. -/
theorem peso_ideal_lorentz_spec :
    (∀ (genero : String) (estatura edad : PyNum),
      peso_ideal_lorentz genero estatura edad =
        (let H : ℚ := convertir_metros_a_cm estatura
         if genero = "mujer" then
           round2 (H - 100 - ((H - 150) / 4) + ((edad.val - 20) / 32))
         else
           round2 (H - 100 - ((H - 150) / 4) + ((edad.val - 20) / 4)))) ∧
    peso_ideal_lorentz "hombre" (.int 170) (.int 22) = 65.5 := by
  constructor
  · intro genero estatura edad
    simp only [peso_ideal_lorentz]
    norm_num
  · decide

/-- C9: a constructed `Persona` (the later, plain-dataclass definition,
which shadows the earlier property-based class of the same name) is
freely mutable: assigning any value to any attribute succeeds with no
validation, stores exactly that value, and leaves the other four
attributes unchanged. -/
theorem persona_mutation_spec :
    ∀ (p : Persona) (v : PyVal),
      ((p.set_nombre v).nombre = v ∧ (p.set_nombre v).genero = p.genero ∧
        (p.set_nombre v).peso = p.peso ∧ (p.set_nombre v).estatura = p.estatura ∧
        (p.set_nombre v).edad = p.edad) ∧
      ((p.set_genero v).genero = v ∧ (p.set_genero v).nombre = p.nombre ∧
        (p.set_genero v).peso = p.peso ∧ (p.set_genero v).estatura = p.estatura ∧
        (p.set_genero v).edad = p.edad) ∧
      ((p.set_peso v).peso = v ∧ (p.set_peso v).nombre = p.nombre ∧
        (p.set_peso v).genero = p.genero ∧ (p.set_peso v).estatura = p.estatura ∧
        (p.set_peso v).edad = p.edad) ∧
      ((p.set_estatura v).estatura = v ∧ (p.set_estatura v).nombre = p.nombre ∧
        (p.set_estatura v).genero = p.genero ∧ (p.set_estatura v).peso = p.peso ∧
        (p.set_estatura v).edad = p.edad) ∧
      ((p.set_edad v).edad = v ∧ (p.set_edad v).nombre = p.nombre ∧
        (p.set_edad v).genero = p.genero ∧ (p.set_edad v).peso = p.peso ∧
        (p.set_edad v).estatura = p.estatura) := by
  intro p v
  exact ⟨⟨rfl, rfl, rfl, rfl, rfl⟩, ⟨rfl, rfl, rfl, rfl, rfl⟩, ⟨rfl, rfl, rfl, rfl, rfl⟩,
    ⟨rfl, rfl, rfl, rfl, rfl⟩, ⟨rfl, rfl, rfl, rfl, rfl⟩⟩

/-- C3: the identifier `krumdieck` (string or enum member) passes
`validar_formula_kcal` with any boolean `eta`, yet `buscar_formula_kcal`
has no entry for it and raises `KeyError`; hence a `CalculadoraDeCalorias`
built with formula `"krumdieck"` constructs fine but its `calcular()`
raises `KeyError`.  Every other calorie identifier resolves to its formula
function in both string and tag form. -/
theorem krumdieck_dispatch_gap :
    ∀ (p : Persona) (e : Bool),
      validar_formula_kcal (.str "krumdieck") (.bool e) = .ok () ∧
      validar_formula_kcal (.memb .krumdieck) (.bool e) = .ok () ∧
      buscar_formula_kcal (.str "krumdieck") = .error .keyError ∧
      buscar_formula_kcal (.memb .krumdieck) = .error .keyError ∧
      mkCalculadoraDeCalorias p (.str "krumdieck") (.bool e) =
        .ok ⟨p, .str "krumdieck", .bool e⟩ ∧
      CalculadoraDeCalorias.calcular ⟨p, .str "krumdieck", .bool e⟩ = .error .keyError ∧
      buscar_formula_kcal (.str "harris") = .ok .harris ∧
      buscar_formula_kcal (.str "mifflin") = .ok .mifflin ∧
      buscar_formula_kcal (.str "fao/oms") = .ok .fao_oms ∧
      buscar_formula_kcal (.memb .harris_benedict) = .ok .harris ∧
      buscar_formula_kcal (.memb .mifflin) = .ok .mifflin ∧
      buscar_formula_kcal (.memb .fao_oms) = .ok .fao_oms := by
  intro p e
  have hval : validar_formula_kcal (.str "krumdieck") (.bool e) = .ok () := by
    cases e <;> decide
  have hbusca : buscar_formula_kcal (.str "krumdieck") = .error .keyError := by decide
  refine ⟨hval, by cases e <;> decide, hbusca, by decide, ?_, ?_, by decide, by decide,
    by decide, by decide, by decide, by decide⟩
  · rw [mkCalculadoraDeCalorias, hval]
    have hlow : pyLower "krumdieck" = "krumdieck" := by decide
    simp [hlow]
  · rw [CalculadoraDeCalorias.calcular]
    simp [hbusca]

/-- C7: construction of `CalculadoraPesoIdeal` from a raw dict fails with
`ValueError` whenever the key set differs from `{genero, estatura, edad}`
(in particular for the extra key `"extra"`), before any computation; when
the key set matches exactly, construction succeeds iff the three values and
the formula id pass their validators. -/
theorem calculadora_peso_ideal_keys_spec :
    ∀ (m : List (String × PyVal)) (formula : FormulaPesoArg),
      (keySetEq (m.map Prod.fst) ["genero", "estatura", "edad"] = false →
        mkCalculadoraPesoIdeal (.inr m) formula = .error .valueError) ∧
      (keySetEq (m.map Prod.fst) ["genero", "estatura", "edad"] = true →
        ((∃ c, mkCalculadoraPesoIdeal (.inr m) formula = .ok c) ↔
          (validar_data_persona (dictGet m "genero") PyVal.none (dictGet m "estatura")
              (dictGet m "edad") = .ok () ∧
            validar_formula_peso_ideal formula = .ok ()))) ∧
      mkCalculadoraPesoIdeal
        (.inr [("genero", .str "hombre"), ("estatura", .float (17/10)),
               ("edad", .int 22), ("extra", .int 1)]) (.str "lorentz") =
        .error .valueError := by
  intro m formula
  refine ⟨?_, ?_, by decide⟩
  · intro h
    rw [mkCalculadoraPesoIdeal, h]
    rfl
  · intro h
    rw [mkCalculadoraPesoIdeal, h]
    cases hv : validar_data_persona (dictGet m "genero") PyVal.none (dictGet m "estatura")
        (dictGet m "edad") with
    | error e => simp [hv]
    | ok u =>
      cases u
      cases hf : validar_formula_peso_ideal formula with
      | error e => simp [hf]
      | ok w => cases w; simp [hf]

/-- C7 witness: a raw dict with a missing key also fails at construction. -/
theorem calculadora_peso_ideal_keys_spec_witness :
    mkCalculadoraPesoIdeal (.inr [("genero", .str "hombre"), ("edad", .int 22)])
      (.str "lorentz") = .error .valueError :=
  (calculadora_peso_ideal_keys_spec [("genero", .str "hombre"), ("edad", .int 22)]
    (.str "lorentz")).1 (by decide)

/-- C1: for positive weight and height, `calcular_imc` equals the BMI
`round2(W / m^2)` with `m` the height divided by 100 iff it exceeds 10,
and the result is invariant to giving the height in centimeters or meters:
for `10 < H ≤ 1000`, `calcular_imc W (H/100) = calcular_imc W H`. -/
theorem calcular_imc_spec :
    ∀ (peso estatura : PyNum), 0 < peso.val → 0 < estatura.val →
      calcular_imc peso estatura =
        .ok (round2 (peso.val /
          (if 10 < estatura.val then estatura.val / 100 else estatura.val) ^ 2)) ∧
      (10 < estatura.val → estatura.val ≤ 1000 →
        calcular_imc peso (.float (estatura.val / 100)) = calcular_imc peso estatura) := by
  intro peso estatura hp he
  have hval := validar_pos_ok peso estatura hp he
  constructor
  · rw [calcular_imc, hval, convertir_cm_a_metros]
  · intro h10 h1000
    have hpos : 0 < estatura.val / 100 := by positivity
    have hval2 := validar_pos_ok peso (.float (estatura.val / 100)) hp hpos
    rw [calcular_imc, calcular_imc, hval, hval2, convertir_cm_a_metros, convertir_cm_a_metros]
    have hv : (PyNum.float (estatura.val / 100)).val = estatura.val / 100 := rfl
    rw [hv, if_neg (by linarith), if_pos h10]

/-- C1 witness at weight 75 and heights 170 cm / 1.70 m. -/
theorem calcular_imc_spec_witness :
    calcular_imc (.int 75) (.float ((PyNum.int 170).val / 100)) =
      calcular_imc (.int 75) (.int 170) :=
  (calcular_imc_spec (.int 75) (.int 170) (by decide) (by decide)).2 (by decide) (by decide)

/-- C10: the method `ValoracionNutricional.calcular_imc` divides the height
by 100 iff it is an `int` (regardless of magnitude) and uses a `float`
height as meters as-is, unlike the module-level `calcular_imc`, which
divides any numeric height above 10 by 100; consequently
`diagnostico_imc` classifies the int form `170` as overweight and the
float form `170.0` of the same height as underweight. -/
theorem valoracion_imc_int_float_spec :
    ∀ (v : ValoracionNutricional) (peso : PyNum), 0 < peso.val →
      (∀ n : Int, 0 < n →
        v.calcular_imc peso (.int n) = .ok (round2 (peso.val / ((n : ℚ) / 100) ^ 2))) ∧
      (∀ q : ℚ, 0 < q →
        v.calcular_imc peso (.float q) = .ok (round2 (peso.val / q ^ 2))) ∧
      (∀ q : ℚ, 10 < q →
        calcular_imc peso (.float q) = .ok (round2 (peso.val / (q / 100) ^ 2))) ∧
      v.calcular_imc peso (.int 170) = .ok (round2 (peso.val / (17/10) ^ 2)) ∧
      v.calcular_imc peso (.float 170) = .ok (round2 (peso.val / 170 ^ 2)) ∧
      ValoracionNutricional.diagnostico_imc ⟨"kevin asael"⟩ (.int 75) (.int 170) =
        .ok "Te encuentras en sobrepeso" ∧
      ValoracionNutricional.diagnostico_imc ⟨"kevin asael"⟩ (.int 75) (.float 170) =
        .ok "Te encuentras en un bajo peso" := by
  intro v peso hp
  have hint : ∀ n : Int, 0 < n →
      v.calcular_imc peso (.int n) = .ok (round2 (peso.val / ((n : ℚ) / 100) ^ 2)) := by
    intro n hn
    have hnq : 0 < ((n : Int) : ℚ) := by exact_mod_cast hn
    have hval := validar_pos_ok peso (.int n) hp hnq
    rw [ValoracionNutricional.calcular_imc, hval]
    rfl
  have hfloat : ∀ q : ℚ, 0 < q →
      v.calcular_imc peso (.float q) = .ok (round2 (peso.val / q ^ 2)) := by
    intro q hq
    have hval := validar_pos_ok peso (.float q) hp hq
    rw [ValoracionNutricional.calcular_imc, hval]
    rfl
  refine ⟨hint, hfloat, ?_, ?_, ?_, by decide, by decide⟩
  · intro q hq
    have hqpos : 0 < q := by linarith
    have hval := validar_pos_ok peso (.float q) hp hqpos
    rw [calcular_imc, hval, convertir_cm_a_metros]
    have hv : (PyNum.float q).val = q := rfl
    rw [hv, if_pos hq]
  · rw [hint 170 (by norm_num)]
    norm_num
  · exact hfloat 170 (by norm_num)

/-- C10 witness at weight 75. -/
theorem valoracion_imc_int_float_spec_witness :
    ValoracionNutricional.calcular_imc ⟨"kevin asael"⟩ (.int 75) (.int 170) =
      .ok (round2 ((PyNum.int 75).val / (17/10) ^ 2)) :=
  (valoracion_imc_int_float_spec ⟨"kevin asael"⟩ (.int 75) (by decide)).2.2.2.1

/-- Helper: `validar_data_persona` either raises `ValueError` or succeeds
with all three numeric field checks passing. -/
theorem validar_cases (g p e ed : PyVal) :
    validar_data_persona g p e ed = .error .valueError ∨
      (validar_data_persona g p e ed = .ok () ∧ checkNumField p = true ∧
        checkNumField e = true ∧ checkNumField ed = true) := by
  rw [validar_data_persona]
  by_cases h1 : generoOk g <;> by_cases h2 : checkNumField p <;>
    by_cases h3 : checkNumField e <;> by_cases h4 : checkNumField ed <;>
    simp [h1, h2, h3, h4]

/-- C2: for every weight and height accepted by validation,
`diagnostico_imc` classifies the computed rounded BMI by the first matching
band, in order: below 18.5 underweight; in [18.5, 25) normal; in
(24.99, 30) overweight; in (29.99, 35) obesity; otherwise the fallback
message.  In particular BMI 17, 22, 27, 32 and 40 give the five outcomes. -/
theorem diagnostico_imc_spec :
    ∀ (v : ValoracionNutricional) (peso estatura : PyNum),
      0 < peso.val → 0 < estatura.val →
      (v.diagnostico_imc peso estatura =
        .ok (let b : ℚ := round2 (peso.val /
               (if estatura.isInt then estatura.val / 100 else estatura.val) ^ 2)
             if b < 18.5 then "Te encuentras en un bajo peso"
             else if 18.5 ≤ b ∧ b < 25 then "Te encuentras en un peso saludable"
             else if 24.99 < b ∧ b < 30 then "Te encuentras en sobrepeso"
             else if 29.99 < b ∧ b < 35 then "Te encuentras en obesidad"
             else mensaje_sin_resultado)) ∧
      ValoracionNutricional.diagnostico_imc ⟨"kevin asael"⟩ (.int 17) (.float 1) =
        .ok "Te encuentras en un bajo peso" ∧
      ValoracionNutricional.diagnostico_imc ⟨"kevin asael"⟩ (.int 22) (.float 1) =
        .ok "Te encuentras en un peso saludable" ∧
      ValoracionNutricional.diagnostico_imc ⟨"kevin asael"⟩ (.int 27) (.float 1) =
        .ok "Te encuentras en sobrepeso" ∧
      ValoracionNutricional.diagnostico_imc ⟨"kevin asael"⟩ (.int 32) (.float 1) =
        .ok "Te encuentras en obesidad" ∧
      ValoracionNutricional.diagnostico_imc ⟨"kevin asael"⟩ (.int 40) (.float 1) =
        .ok mensaje_sin_resultado := by
  intro v peso estatura hp he
  have hval := validar_pos_ok peso estatura hp he
  refine ⟨?_, by decide, by decide, by decide, by decide, by decide⟩
  have hcalc : v.calcular_imc peso estatura =
      .ok (round2 (peso.val /
        (if estatura.isInt then estatura.val / 100 else estatura.val) ^ 2)) := by
    rw [ValoracionNutricional.calcular_imc, hval]
  rw [ValoracionNutricional.diagnostico_imc, hval, hcalc]
  set b : ℚ := round2 (peso.val /
    (if estatura.isInt then estatura.val / 100 else estatura.val) ^ 2) with hbdef
  by_cases h1 : b < 18.5
  · simp [h1]
  · have h1le : (18.5 : ℚ) ≤ b := not_lt.mp h1
    by_cases h2 : b < 25
    · simp [h1, h1le, h2]
    · have h2le : (25 : ℚ) ≤ b := not_lt.mp h2
      have h3 : (24.99 : ℚ) < b := by linarith
      by_cases h4 : b < 30
      · simp [h1, h2, h3, h4]
      · have h4le : (30 : ℚ) ≤ b := not_lt.mp h4
        have h5 : (29.99 : ℚ) < b := by linarith
        by_cases h6 : b < 35
        · simp [h1, h2, h3, h4, h5, h6]
        · simp [h1, h2, h3, h4, h5, h6]

/-- C2 witness at weight 22 and float height 1 (BMI 22, normal weight). -/
theorem diagnostico_imc_spec_witness :
    ValoracionNutricional.diagnostico_imc ⟨"kevin asael"⟩ (.int 22) (.float 1) =
      .ok "Te encuentras en un peso saludable" :=
  (diagnostico_imc_spec ⟨"kevin asael"⟩ (.int 22) (.float 1)
    (by decide) (by decide)).2.2.1

/-- C6 counterexample: `None` is not numeric, yet a `Persona` whose
`peso`, `estatura` and `edad` are all `None` constructs successfully —
`validar_data_persona` skips every check for `None` values, so the claimed
"non-numeric raises ValueError" fails at this input. -/
theorem persona_none_counterexample :
    PyVal.isIntOrFloat PyVal.none = false ∧
    mkPersona (.str "kevin dueñas") (.str "hombre") PyVal.none PyVal.none PyVal.none =
      .ok ⟨.str "kevin dueñas", .str "hombre", PyVal.none, PyVal.none, PyVal.none⟩ := by
  exact ⟨by decide, by decide⟩

/-- C6 (amended): `Persona` construction raises `ValueError` whenever the
name is not a string or is shorter than 5 characters, or any of
`peso`/`estatura`/`edad` is provided as a non-`None` value that is a
boolean, non-numeric, or ≤ 0 (a `None` value skips validation and is
accepted). -/
theorem persona_invalid_spec :
    ∀ (nombre genero peso estatura edad : PyVal),
      (nombreInvalido nombre = true ∨ campoNumericoInvalido peso = true ∨
        campoNumericoInvalido estatura = true ∨ campoNumericoInvalido edad = true) →
      mkPersona nombre genero peso estatura edad = .error .valueError := by
  intro nombre genero peso estatura edad h
  cases nombre with
  | str s =>
    by_cases hlen : s.length < 5
    · simp [mkPersona, hlen]
    · have hfield : campoNumericoInvalido peso = true ∨
          campoNumericoInvalido estatura = true ∨ campoNumericoInvalido edad = true := by
        rcases h with h | h | h | h
        · exfalso
          have : nombreInvalido (.str s) = false := by
            simp [nombreInvalido, hlen]
          rw [this] at h
          exact Bool.false_ne_true h
        · exact Or.inl h
        · exact Or.inr (Or.inl h)
        · exact Or.inr (Or.inr h)
      rcases validar_cases genero peso estatura edad with hv | ⟨_, hcp, hce, hced⟩
      · simp [mkPersona, hlen, hv]
      · exfalso
        rcases hfield with hf | hf | hf
        · rw [checkNumField_eq_not_invalido, hf] at hcp
          exact Bool.false_ne_true hcp
        · rw [checkNumField_eq_not_invalido, hf] at hce
          exact Bool.false_ne_true hce
        · rw [checkNumField_eq_not_invalido, hf] at hced
          exact Bool.false_ne_true hced
  | none => rfl
  | bool b => rfl
  | int n => rfl
  | float q => rfl

/-- C6 witness: a 4-character name, weight `-5` and weight `True` each
make construction raise `ValueError`. -/
theorem persona_invalid_spec_witness :
    mkPersona (.str "perr") (.str "hombre") (.int 75) (.int 170) (.int 22) =
      .error .valueError ∧
    mkPersona (.str "kevin dueñas") (.str "hombre") (.int (-5)) (.int 170) (.int 22) =
      .error .valueError ∧
    mkPersona (.str "kevin dueñas") (.str "hombre") (.bool true) (.int 170) (.int 22) =
      .error .valueError :=
  ⟨persona_invalid_spec (.str "perr") (.str "hombre") (.int 75) (.int 170) (.int 22)
      (Or.inl (by decide)),
   persona_invalid_spec (.str "kevin dueñas") (.str "hombre") (.int (-5)) (.int 170) (.int 22)
      (Or.inr (Or.inl (by decide))),
   persona_invalid_spec (.str "kevin dueñas") (.str "hombre") (.bool true) (.int 170) (.int 22)
      (Or.inr (Or.inl (by decide)))⟩

end
